import Mathlib

/-!
Verification development for the yummy offline-store core
(`src/yummy/backends/backend.py`, `src/yummy/sources/iceberg.py`).

The Python code is shallowly embedded: dataframes become explicit column
lists / row association-lists, Python exceptions become an explicit error
type threaded through `Except`, and the engine-specific dataframe
primitives of the abstract `Backend` class (whose concrete dask / spark /
polars implementations are outside the analysed sources) are modelled from
the specification contract, as flagged on each such definition.
-/

set_option maxHeartbeats 1000000

namespace Yummy

/-- Python exceptions that can be raised by the embedded code. -/
inductive PyError where
  | nameError (n : String)
  | unboundLocalError (n : String)
  | keyError (k : String)
  | typeError (msg : String)
  | valueError (msg : String)
  | joinKeysDuringMaterialization (path : String)
  | schemaError (c : String)
  deriving DecidableEq, Repr

/-- Values appearing in the flat JSON object that
`IcebergDataSource.to_proto` serializes into `custom_options.configuration`
(strings, integers, and JSON null for Python `None`). -/
inductive JsonVal where
  | jstr (s : String)
  | jint (i : Int)
  | jnull
  deriving DecidableEq, Repr

/-- `IcebergDataSource` (src/yummy/sources/iceberg.py, lines 14-35).
The dynamically typed constructor arguments `path`, `s3_endpoint_override`
and `range_join` are kept as JSON values, matching how `from_proto`
reassigns them straight from the parsed JSON payload. -/
structure IcebergDataSource where
  event_timestamp_column : String
  created_timestamp_column : String
  date_partition_column : String
  field_mapping : List (String × String)
  path : JsonVal
  s3_endpoint_override : JsonVal
  range_join : JsonVal
  deriving DecidableEq, Repr

/-- The `DataSource` proto as used by `to_proto` / `from_proto`:
the `custom_options.configuration` bytes are modelled as the parsed flat
JSON object they encode (the Python `json` module round-trips such flat
objects exactly). -/
structure DataSourceProto where
  field_mapping : List (String × String)
  custom_options : List (String × JsonVal)
  event_timestamp_column : String
  created_timestamp_column : String
  date_partition_column : String
  deriving DecidableEq, Repr

/-- Python dictionary subscription `json.loads(opts)[k]`: the value at key
`k`, or a `KeyError` when the key is absent. -/
def jsonSubscript (o : List (String × JsonVal)) (k : String) : Except PyError JsonVal :=
  match o.find? (fun p => p.1 == k) with
  | some p => Except.ok p.2
  | none => Except.error (PyError.keyError k)

/-- `IcebergDataSource.to_proto` (iceberg.py, lines 87-107): serializes
`path`, `s3_endpoint_override` and `range_join` into the custom-options
JSON payload and copies the remaining fields onto the proto. -/
def IcebergDataSource.to_proto (ds : IcebergDataSource) : DataSourceProto :=
  { field_mapping := ds.field_mapping
    custom_options :=
      [("path", ds.path),
       ("s3_endpoint_override", ds.s3_endpoint_override),
       ("range_join", ds.range_join)]
    event_timestamp_column := ds.event_timestamp_column
    created_timestamp_column := ds.created_timestamp_column
    date_partition_column := ds.date_partition_column }

/-- `IcebergDataSource.from_proto` (iceberg.py, lines 65-85): subscripts the
parsed custom-options JSON object at the keys `path`,
`s3_endpoint_override` and `range_join` (each subscription raises
`KeyError` when its key is absent) and rebuilds the data source. -/
def IcebergDataSource.from_proto (p : DataSourceProto) : Except PyError IcebergDataSource := do
  let path ← jsonSubscript p.custom_options "path"
  let s3_endpoint_override ← jsonSubscript p.custom_options "s3_endpoint_override"
  let range_join ← jsonSubscript p.custom_options "range_join"
  Except.ok
    { field_mapping := p.field_mapping
      path := path
      s3_endpoint_override := s3_endpoint_override
      event_timestamp_column := p.event_timestamp_column
      created_timestamp_column := p.created_timestamp_column
      date_partition_column := p.date_partition_column
      range_join := range_join }

/-- Instances of the concrete backend classes that `BackendFactory.create`
can construct (their implementations live outside the analysed sources). -/
inductive BackendImpl where
  | daskBackend
  | sparkBackend
  | polarsBackend
  deriving DecidableEq, Repr

/-- String values of the `BackendType` str-enum (backend.py lines 33-37). -/
def backendTypeTags : List String := ["dask", "ray", "spark", "polars"]

/-- `BackendFactory.create` (backend.py lines 237-260), with the
configuration tag as the string it is compared against.  Two remarks on
fidelity to the source: the `ray` branch (line 250) passes
`ray_dask_get`, a name no import of the module binds, so that branch
raises NameError; and the fallback `return PolarsBackend(backend_config)`
at line 260 reads `PolarsBackend`, a function-local name whose only
binding import sits inside the (untaken) polars branch, so Python raises
UnboundLocalError there.  The stray second closing parenthesis on the def
line 242 is treated as repaired, else the module would not even parse. -/
def BackendFactory.create (backend_type : String) : Except PyError BackendImpl :=
  if backend_type == "dask" then Except.ok BackendImpl.daskBackend
  else if backend_type == "ray" then Except.error (PyError.nameError "ray_dask_get")
  else if backend_type == "spark" then Except.ok BackendImpl.sparkBackend
  else if backend_type == "polars" then Except.ok BackendImpl.polarsBackend
  else Except.error (PyError.unboundLocalError "PolarsBackend")

/-- Identifier for a Python closure passed around as an evaluation
function (the argument of `create_retrival_job`). -/
inductive EvalFn where
  | fn (id : Nat)
  deriving DecidableEq, Repr

/-- Retrieval-job wrapper.  Modelled from the spec: it holds the evaluation
closure, the full/short feature-name flag, the associated on-demand
transforms and the retrieval metadata. -/
structure RetrievalJobModel where
  evaluation_function : EvalFn
  full_feature_names : Bool
  on_demand_feature_views : List String
  metadata : Option (Int × Int)
  deriving DecidableEq, Repr

/-- Value of a module-global name of backend.py when resolved to an
evaluation closure.  The module scope (lines 1-41) binds only imports,
enums and classes; in particular the name `evaluate_historical_retrieval`
is bound nowhere at module scope (it exists only as a local of
`get_historical_features`), so no module-global resolves to a closure. -/
def backendModuleGlobalClosure (_n : String) : Option EvalFn := none

/-- `Backend.create_retrival_job` (backend.py lines 207-220).  Line 216
passes `evaluation_function=evaluate_historical_retrieval`, resolving the
module-global name `evaluate_historical_retrieval` instead of using the
`evaluation_function` parameter; the name is unbound, so the call raises
NameError.  (Line 214 additionally instantiates the job class with no
arguments and discards the result; the engine job classes are outside the
sources, so the embedding conservatively lets that call succeed — the
NameError below is forced either way.) -/
def Backend.create_retrival_job (evaluation_function : EvalFn)
    (full_feature_names : Bool) (on_demand_feature_views : List String)
    (metadata : Option (Int × Int)) : Except PyError RetrievalJobModel :=
  match backendModuleGlobalClosure "evaluate_historical_retrieval" with
  | some g =>
      Except.ok
        { evaluation_function := g
          full_feature_names := full_feature_names
          on_demand_feature_views := on_demand_feature_views
          metadata := metadata }
  | none => Except.error (PyError.nameError "evaluate_historical_retrieval")

/-- Schema-level view of the entity dataframe handed to
`get_historical_features`: its column names together with the sub-list of
columns of datetime dtype (what `select_dtypes_columns` with
include=["datetime", "datetimetz"] returns). -/
structure EntityFrame where
  cols : List String
  datetimeCols : List String
  deriving DecidableEq, Repr

/-- Standard entity event-timestamp column name (imported from feast). -/
def DEFAULT_ENTITY_DF_EVENT_TIMESTAMP_COL : String := "event_timestamp"

/-- Modelled from the spec: `Backend.prepare_entity_df` maps the entity
frame to the backend-native representation; at schema level it is the
identity. -/
def prepare_entity_df (e : EntityFrame) : EntityFrame := e

/-- Job-construction phase of `YummyOfflineStore.get_historical_features`
(backend.py lines 275-317 and 398-411; the body of the deferred closure,
lines 320-396, is embedded separately below).  Line 288 applies
`backend.columns_list` to the local variable
`entity_df_event_timestamp_col`, whose first assignment only happens at
line 290, so evaluating the argument raises UnboundLocalError before the
timestamp-column inference of lines 290-304 runs, before any feature
view's source is read, and before `create_retrival_job` is reached.  The
not-yet-assigned local is modelled as `none`. -/
def get_historical_features_construct (entity_df : EntityFrame)
    (_full_feature_names : Bool) : Except PyError RetrievalJobModel :=
  let _entity_df := prepare_entity_df entity_df
  let entity_df_event_timestamp_col_at_line_288 : Option String := none
  match entity_df_event_timestamp_col_at_line_288 with
  | some c =>
      Except.error (PyError.typeError (String.append c " is a str, not a dataframe"))
  | none => Except.error (PyError.unboundLocalError "entity_df_event_timestamp_col")

/-- Cell values of a dataframe; timestamps are integers in this model. -/
inductive Value where
  | vint (i : Int)
  | vstr (s : String)
  | vnull
  deriving DecidableEq, Repr

/-- A row of a dataframe: an association list from column name to value. -/
abbrev Row := List (String × Value)

/-- Value of a row at a column: first matching entry, null when absent. -/
def rowGet (r : Row) (c : String) : Value :=
  match r.find? (fun p => p.1 == c) with
  | some p => p.2
  | none => Value.vnull

/-- A dataframe: column names plus rows. -/
structure DataFrame where
  cols : List String
  rows : List Row
  deriving DecidableEq, Repr

/-- Dummy entity join-key name (imported from feast.feature_view). -/
def DUMMY_ENTITY_ID : String := "__dummy_id"

/-- Dummy entity join-key value (imported from feast.feature_view). -/
def DUMMY_ENTITY_VAL : String := ""

/-- `Backend.columns_list` (backend.py lines 191-198): the frame's columns. -/
def columns_list (df : DataFrame) : List String := df.cols

/-- Modelled from the spec: `normalize_timestamp` casts the event and
created timestamp columns to the canonical timestamp type, failing with a
SchemaError-class condition when a named column is absent; on the integer
timestamps of this model the cast itself changes nothing. -/
def normalize_timestamp (df : DataFrame) (event_timestamp_column : String)
    (created_timestamp_column : Option String) : Except PyError DataFrame :=
  if event_timestamp_column ∉ df.cols then
    Except.error (PyError.schemaError event_timestamp_column)
  else
    match created_timestamp_column with
    | some c =>
        if c ∉ df.cols then Except.error (PyError.schemaError c) else Except.ok df
    | none => Except.ok df

/-- Modelled from the spec: `filter_time_range` keeps exactly the rows
whose event timestamp lies in the half-open window from start_date
(inclusive) to end_date (exclusive). -/
def filter_time_range (df : DataFrame) (event_timestamp_column : String)
    (start_date end_date : Int) : DataFrame :=
  { cols := df.cols
    rows := df.rows.filter (fun r =>
      match rowGet r event_timestamp_column with
      | Value.vint t => decide (start_date ≤ t ∧ t < end_date)
      | _ => false) }

/-- Integer reading of a timestamp cell (non-integers count as 0). -/
def Value.toI : Value → Int
  | Value.vint i => i
  | _ => 0

/-- Event/created timestamp pair of a row, used to order duplicates. -/
def tsPair (r : Row) (event_timestamp_column : String)
    (created_timestamp_column : Option String) : Int × Int :=
  ((rowGet r event_timestamp_column).toI,
    match created_timestamp_column with
    | some c => (rowGet r c).toI
    | none => 0)

/-- Lexicographic order on timestamp pairs. -/
def tsLe (p q : Int × Int) : Bool :=
  decide (p.1 < q.1) || (p.1 == q.1 && decide (p.2 ≤ q.2))

/-- Modelled from the spec: `drop_duplicates` keeps, for every combination
of the key columns, exactly one row — the one with the latest event
timestamp, tie-broken by the latest created timestamp, later rows winning
remaining ties (last write wins). -/
def drop_duplicates (df : DataFrame) (all_join_keys : List String)
    (event_timestamp_column : String)
    (created_timestamp_column : Option String) : DataFrame :=
  { cols := df.cols
    rows := df.rows.foldl (fun acc r =>
      let key := all_join_keys.map (rowGet r)
      if acc.any (fun r0 => all_join_keys.map (rowGet r0) == key) then
        acc.map (fun r0 =>
          if all_join_keys.map (rowGet r0) == key &&
              tsLe (tsPair r0 event_timestamp_column created_timestamp_column)
                (tsPair r event_timestamp_column created_timestamp_column)
          then r else r0)
      else acc ++ [r]) [] }

/-- Modelled from the spec: `add_static_column` appends a constant-valued
column. -/
def add_static_column (df : DataFrame) (column_name : String)
    (column_value : String) : DataFrame :=
  { cols := df.cols ++ [column_name]
    rows := df.rows.map (fun r => r ++ [(column_name, Value.vstr column_value)]) }

/-- Modelled from the spec: `select` projects the frame to the given
column list, order-preserving per that list. -/
def select (df : DataFrame) (columnsList : List String) : DataFrame :=
  { cols := columnsList
    rows := df.rows.map (fun r => columnsList.map (fun c => (c, rowGet r c))) }

/-- Deferred evaluation closure of `pull_latest_from_table_or_query`
(backend.py lines 430-463).  The datasource read at line 431 is delegated
to the external Reader; the frame it produces is the `source_df`
parameter.  Python's `set(...)` for `columns_to_extract` is modelled as a
duplicate-free list, and `columns_to_extract.add` as an append guarded by
membership. -/
def evaluate_offline_job (source_df : DataFrame) (dsPath : String)
    (join_key_columns feature_name_columns : List String)
    (event_timestamp_column : String) (created_timestamp_column : Option String)
    (start_date end_date : Int) : Except PyError DataFrame := do
  let source_df ← normalize_timestamp source_df event_timestamp_column
    created_timestamp_column
  let all_columns := columns_list source_df
  if ¬ (∀ c ∈ join_key_columns, c ∈ all_columns) then
    Except.error (PyError.joinKeysDuringMaterialization dsPath)
  else
    let ts_columns :=
      match created_timestamp_column with
      | some c => [event_timestamp_column, c]
      | none => [event_timestamp_column]
    let source_df :=
      filter_time_range source_df event_timestamp_column start_date end_date
    let columns_to_extract :=
      (join_key_columns ++ feature_name_columns ++ ts_columns).dedup
    if join_key_columns ≠ [] then
      let source_df := drop_duplicates source_df join_key_columns
        event_timestamp_column created_timestamp_column
      Except.ok (select source_df columns_to_extract)
    else
      let source_df := add_static_column source_df DUMMY_ENTITY_ID DUMMY_ENTITY_VAL
      let columns_to_extract :=
        if DUMMY_ENTITY_ID ∈ columns_to_extract then columns_to_extract
        else columns_to_extract ++ [DUMMY_ENTITY_ID]
      Except.ok (select source_df columns_to_extract)

/-- Parameters captured by the deferred `evaluate_offline_job` closure that
`pull_latest_from_table_or_query` builds (backend.py lines 413-468).  The
job-wrapper construction itself (`create_retrival_job`, line 466) is
modelled separately above; this record is the logical content of the pull:
what evaluating the captured closure computes. -/
structure OfflinePullJob where
  dsPath : String
  join_key_columns : List String
  feature_name_columns : List String
  event_timestamp_column : String
  created_timestamp_column : Option String
  start_date : Int
  end_date : Int
  deriving DecidableEq, Repr

/-- `pull_latest_from_table_or_query` (backend.py lines 413-468): the
deferred closure captures exactly the call's arguments. -/
def pull_latest_from_table_or_query (dsPath : String)
    (join_key_columns feature_name_columns : List String)
    (event_timestamp_column : String) (created_timestamp_column : Option String)
    (start_date end_date : Int) : OfflinePullJob :=
  { dsPath := dsPath
    join_key_columns := join_key_columns
    feature_name_columns := feature_name_columns
    event_timestamp_column := event_timestamp_column
    created_timestamp_column := created_timestamp_column
    start_date := start_date
    end_date := end_date }

/-- Evaluation of a captured pull closure on the frame the Reader
produces. -/
def OfflinePullJob.run (j : OfflinePullJob) (source_df : DataFrame) :
    Except PyError DataFrame :=
  evaluate_offline_job source_df j.dsPath j.join_key_columns
    j.feature_name_columns j.event_timestamp_column j.created_timestamp_column
    j.start_date j.end_date

/-- `pull_all_from_table_or_query` (backend.py lines 470-491): delegates to
`pull_latest_from_table_or_query` with the event-timestamp column appended
to the join-key list (avoiding deduplication, per the source comment) and
no created-timestamp column. -/
def pull_all_from_table_or_query (dsPath : String)
    (join_key_columns feature_name_columns : List String)
    (event_timestamp_column : String) (start_date end_date : Int) :
    OfflinePullJob :=
  pull_latest_from_table_or_query dsPath
    (join_key_columns ++ [event_timestamp_column]) feature_name_columns
    event_timestamp_column none start_date end_date

/-- A feature view as the join loop of `evaluate_historical_retrieval`
consumes it: requested entity names, the projection's join-key rename map,
the batch source's field-mapping rename map, the requested feature
columns, and the batch source's timestamp column names (the created
timestamp is optional; feast encodes its absence as the empty string,
filtered out at line 352). -/
structure FeatureView where
  name : String
  entities : List String
  join_key_map : List (String × String)
  field_mapping : List (String × String)
  features : List String
  event_timestamp_column : String
  created_timestamp_column : Option String
  deriving DecidableEq, Repr

/-- Python `m.get(k, k)` on an association-list map. -/
def lookupD (m : List (String × String)) (k : String) : String :=
  match m.find? (fun p => p.1 == k) with
  | some p => p.2
  | none => k

/-- Join keys of a feature view (backend.py lines 339-346): each requested
entity's join key, resolved through the registry (modelled as a function
from entity name to join key) and renamed through the view's projection
join-key map. -/
def joinKeysOf (registry : String → String) (fv : FeatureView) : List String :=
  fv.entities.map (fun e => lookupD fv.join_key_map (registry e))

/-- Modelled from the spec: the Reader (line 356) materializes the feature
view's batch source with exactly its join-key, timestamp and requested
feature columns. -/
def readDatasourceCols (registry : String → String) (fv : FeatureView) : List String :=
  joinKeysOf registry fv ++ [fv.event_timestamp_column] ++
    (match fv.created_timestamp_column with
     | some c => [c]
     | none => []) ++ fv.features

/-- Name of a feature column after the field-mapping rename and the
optional qualification with the feature-view name (full_feature_names). -/
def mappedFeature (fv : FeatureView) (full : Bool) (f : String) : String :=
  let f1 := lookupD fv.field_mapping f
  if full then fv.name ++ "__" ++ f1 else f1

/-- Output names of a view's feature columns. -/
def mappedFeatures (fv : FeatureView) (full : Bool) : List String :=
  fv.features.map (mappedFeature fv full)

/-- Renamed event-timestamp column name that field_mapping returns. -/
def mappedEts (fv : FeatureView) : String :=
  lookupD fv.field_mapping fv.event_timestamp_column

/-- Modelled from the spec: `field_mapping` (line 358) renames the frame's
columns by the view's rename map, qualifying feature columns when
full_feature_names is set, and returns the renamed event-timestamp column
name alongside the frame. -/
def fieldMappingCols (fv : FeatureView) (full : Bool) (cols : List String) :
    List String × String :=
  (cols.map (fun c =>
      if c ∈ fv.features then mappedFeature fv full c
      else lookupD fv.field_mapping c),
   mappedEts fv)

/-- Modelled from the spec: column set of the left merge (line 368) on the
join keys — every left column, plus the right columns not already present
(the join keys appear once; collisions outside the join keys are excluded
by the well-formedness hypotheses of the theorems below). -/
def mergeCols (left right : List String) (_join_keys : List String) : List String :=
  left ++ right.filter (fun c => decide (c ∉ left))

/-- Modelled from the spec: `drop_columns` (line 389) removes the event
and created timestamp columns of the processed view. -/
def dropColumnsSchema (cols : List String) (event_timestamp_column : String)
    (created_timestamp_column : Option String) : List String :=
  cols.filter (fun c =>
    !(c == event_timestamp_column ||
      match created_timestamp_column with
      | some c0 => c == c0
      | none => false))

/-- One iteration of the join loop of `evaluate_historical_retrieval`
(backend.py lines 330-394) at schema level: read the view's source, apply
field mapping, left-merge onto the accumulator on the join keys
(normalize_timestamp at line 370, filter_ttl at line 374 and
drop_duplicates at line 381 preserve the schema), then drop the view's
timestamp columns. -/
def processFeatureView (registry : String → String) (full : Bool)
    (acc : List String) (fv : FeatureView) : List String :=
  let join_keys := joinKeysOf registry fv
  let fm := fieldMappingCols fv full (readDatasourceCols registry fv)
  let df_to_join := mergeCols acc fm.1 join_keys
  dropColumnsSchema df_to_join fm.2 fv.created_timestamp_column

/-- Column set of the accumulator of `evaluate_historical_retrieval`
(backend.py lines 320-396) after processing the given feature views in
order (normalize_timezone and sort_values before the loop preserve the
schema). -/
def evaluateHistoricalCols (registry : String → String) (full : Bool)
    (entityCols : List String) (views : List FeatureView) : List String :=
  views.foldl (processFeatureView registry full) entityCols

/-- Name hygiene of a historical retrieval: every view's join keys are
entity columns, untouched by the rename maps and disjoint from its feature
list, and every view's (renamed) event and created timestamp columns are
distinct from the entity columns and from all views' output feature
columns.  A retrieval violating these would mis-join or silently drop user
columns before the invariant is even at stake. -/
def RetrievalWF (registry : String → String) (full : Bool)
    (entityCols : List String) (views : List FeatureView) : Prop :=
  ∀ fv ∈ views,
    (∀ k ∈ joinKeysOf registry fv,
        k ∈ entityCols ∧ lookupD fv.field_mapping k = k ∧ k ∉ fv.features) ∧
    fv.event_timestamp_column ∉ fv.features ∧
    (mappedEts fv ∉ entityCols ∧
      ∀ fv' ∈ views, mappedEts fv ∉ mappedFeatures fv' full) ∧
    (∀ c0, fv.created_timestamp_column = some c0 →
        c0 ∉ fv.features ∧ lookupD fv.field_mapping c0 = c0 ∧
        c0 ∉ entityCols ∧ ∀ fv' ∈ views, c0 ∉ mappedFeatures fv' full)

end Yummy

namespace Yummy

/-- Reduction of bind on a successful Except computation. -/
theorem except_ok_bind {ε α β : Type} (a : α) (f : α → Except ε β) :
    (Except.ok a >>= f : Except ε β) = f a := rfl

/-- C8: deserializing the serialized proto form of any Iceberg data-source
description recovers every field exactly: `from_proto` after `to_proto` is
the identity on logical data sources. -/
theorem iceberg_roundtrip (ds : IcebergDataSource) :
    IcebergDataSource.from_proto (IcebergDataSource.to_proto ds) = Except.ok ds := by
  cases ds
  rfl

/-- C10: `IcebergDataSource.from_proto` succeeds exactly when the
custom-options JSON payload contains all three keys `path`,
`s3_endpoint_override` and `range_join`; a proto lacking any of them makes
deserialization fail instead of defaulting the field. -/
theorem from_proto_partial (p : DataSourceProto) :
    (∃ ds, IcebergDataSource.from_proto p = Except.ok ds) ↔
      ("path" ∈ p.custom_options.map Prod.fst ∧
       "s3_endpoint_override" ∈ p.custom_options.map Prod.fst ∧
       "range_join" ∈ p.custom_options.map Prod.fst) := by
  have hmem : ∀ (k : String),
      (∃ v, jsonSubscript p.custom_options k = Except.ok v) ↔
        k ∈ p.custom_options.map Prod.fst := by
    intro k
    unfold jsonSubscript
    constructor
    · rintro ⟨v, hv⟩
      cases hfind : p.custom_options.find? (fun q => q.1 == k) with
      | none => rw [hfind] at hv; exact absurd hv (by simp)
      | some q =>
          have hq := List.find?_some hfind
          have hmem' := List.mem_of_find?_eq_some hfind
          have : q.1 = k := by simpa using hq
          exact List.mem_map.mpr ⟨q, hmem', this⟩
    · intro hk
      rcases List.mem_map.mp hk with ⟨q, hqmem, hq1⟩
      cases hfind : p.custom_options.find? (fun r => r.1 == k) with
      | none =>
          have := List.find?_eq_none.mp hfind q hqmem
          simp [hq1] at this
      | some r => exact ⟨r.2, rfl⟩
  constructor
  · rintro ⟨ds, hds⟩
    unfold IcebergDataSource.from_proto at hds
    cases h1 : jsonSubscript p.custom_options "path" with
    | error e => rw [h1] at hds; exact absurd hds (by simp [Bind.bind, Except.bind])
    | ok v1 =>
      rw [h1] at hds
      cases h2 : jsonSubscript p.custom_options "s3_endpoint_override" with
      | error e => rw [h2] at hds; exact absurd hds (by simp [Bind.bind, Except.bind])
      | ok v2 =>
        rw [h2] at hds
        cases h3 : jsonSubscript p.custom_options "range_join" with
        | error e => rw [h3] at hds; exact absurd hds (by simp [Bind.bind, Except.bind])
        | ok v3 =>
            exact ⟨(hmem "path").mp ⟨v1, h1⟩,
                   (hmem "s3_endpoint_override").mp ⟨v2, h2⟩,
                   (hmem "range_join").mp ⟨v3, h3⟩⟩
  · rintro ⟨h1, h2, h3⟩
    rcases (hmem "path").mpr h1 with ⟨v1, hv1⟩
    rcases (hmem "s3_endpoint_override").mpr h2 with ⟨v2, hv2⟩
    rcases (hmem "range_join").mpr h3 with ⟨v3, hv3⟩
    refine ⟨{ field_mapping := p.field_mapping, path := v1, s3_endpoint_override := v2,
              event_timestamp_column := p.event_timestamp_column,
              created_timestamp_column := p.created_timestamp_column,
              date_partition_column := p.date_partition_column, range_join := v3 }, ?_⟩
    unfold IcebergDataSource.from_proto
    rw [hv1, hv2, hv3]
    rfl

/-- C6: contrary to the claim, `BackendFactory.create` on a tag outside the
four known engine tags does not return the default polars backend — it
fails: the fallback line reads `PolarsBackend`, whose import is confined to
the untaken polars branch, so Python raises UnboundLocalError. -/
theorem factory_unknown_tag_fails (t : String) (h : t ∉ backendTypeTags) :
    BackendFactory.create t = Except.error (PyError.unboundLocalError "PolarsBackend") := by
  simp only [backendTypeTags, List.mem_cons, List.not_mem_nil, or_false, not_or] at h
  obtain ⟨h1, h2, h3, h4⟩ := h
  simp [BackendFactory.create, h1, h2, h3, h4]

/-- Witness for C6 at the concrete unknown tag "delta". -/
theorem factory_unknown_tag_fails_witness :
    "delta" ∉ backendTypeTags ∧
      BackendFactory.create "delta" =
        Except.error (PyError.unboundLocalError "PolarsBackend") :=
  ⟨by decide, factory_unknown_tag_fails "delta" (by decide)⟩

/-- C9: contrary to the claim, `Backend.create_retrival_job` never returns
a job holding the supplied closure: line 216 passes the unbound
module-global name `evaluate_historical_retrieval` instead of the
`evaluation_function` parameter, so every call raises NameError. -/
theorem create_retrival_job_never_holds_closure
    (f : EvalFn) (full : Bool) (odfv : List String) (md : Option (Int × Int)) :
    Backend.create_retrival_job f full odfv md =
      Except.error (PyError.nameError "evaluate_historical_retrieval") := rfl

/-- C5: contrary to the claim, even on an entity frame that lacks the
standard event-timestamp column and has exactly one datetime-typed column,
`get_historical_features` does not fall back to that column: it raises
UnboundLocalError at line 288 (the local `entity_df_event_timestamp_col`
is read before its first assignment at line 290), before the inference of
lines 290-304 can run. -/
theorem timestamp_inference_never_runs (e : EntityFrame) (full : Bool)
    (_hstd : DEFAULT_ENTITY_DF_EVENT_TIMESTAMP_COL ∉ e.cols)
    (_huniq : e.datetimeCols.length = 1) :
    get_historical_features_construct e full =
      Except.error (PyError.unboundLocalError "entity_df_event_timestamp_col") := rfl

/-- Witness for C5: a frame with columns driver_id and custom_ts, where
custom_ts is the unique datetime column. -/
theorem timestamp_inference_never_runs_witness :
    DEFAULT_ENTITY_DF_EVENT_TIMESTAMP_COL ∉ ["driver_id", "custom_ts"] ∧
      (EntityFrame.mk ["driver_id", "custom_ts"] ["custom_ts"]).datetimeCols.length = 1 ∧
      get_historical_features_construct
          (EntityFrame.mk ["driver_id", "custom_ts"] ["custom_ts"]) false =
        Except.error (PyError.unboundLocalError "entity_df_event_timestamp_col") :=
  ⟨by decide, by decide,
    timestamp_inference_never_runs
      (EntityFrame.mk ["driver_id", "custom_ts"] ["custom_ts"]) false
      (by decide) (by decide)⟩

/-- Normalizing timestamps leaves the frame unchanged when the named
timestamp columns are present. -/
theorem normalize_timestamp_ok (df : DataFrame) (ets : String)
    (cts : Option String) (h1 : ets ∈ df.cols)
    (h2 : ∀ c, cts = some c → c ∈ df.cols) :
    normalize_timestamp df ets cts = Except.ok df := by
  cases cts with
  | none => simp [normalize_timestamp, h1]
  | some c => simp [normalize_timestamp, h1, h2 c rfl]

/-- C3: `pull_all_from_table_or_query` builds exactly the pull job of
`pull_latest_from_table_or_query` called with the event-timestamp column
appended to the join-key list and no created-timestamp column, and hence
its evaluation on any source frame is exactly that call's evaluation. -/
theorem pull_all_delegates_to_pull_latest (dsPath : String)
    (join_key_columns feature_name_columns : List String)
    (event_timestamp_column : String) (start_date end_date : Int) :
    pull_all_from_table_or_query dsPath join_key_columns feature_name_columns
        event_timestamp_column start_date end_date =
      pull_latest_from_table_or_query dsPath
        (join_key_columns ++ [event_timestamp_column]) feature_name_columns
        event_timestamp_column none start_date end_date ∧
    ∀ source_df : DataFrame,
      (pull_all_from_table_or_query dsPath join_key_columns
          feature_name_columns event_timestamp_column start_date
          end_date).run source_df =
        evaluate_offline_job source_df dsPath
          (join_key_columns ++ [event_timestamp_column]) feature_name_columns
          event_timestamp_column none start_date end_date :=
  ⟨rfl, fun _ => rfl⟩

/-- C4: evaluating a materialization pull fails with the
join-key-mismatch error exactly when some requested join-key column is
absent from the source frame's columns (assuming the timestamp columns it
normalizes are present); with all join keys present that error does not
occur. -/
theorem pull_join_key_mismatch_iff (source_df : DataFrame) (dsPath : String)
    (join_key_columns feature_name_columns : List String)
    (ets : String) (cts : Option String) (start_date end_date : Int)
    (h1 : ets ∈ source_df.cols) (h2 : ∀ c, cts = some c → c ∈ source_df.cols) :
    (evaluate_offline_job source_df dsPath join_key_columns
        feature_name_columns ets cts start_date end_date =
      Except.error (PyError.joinKeysDuringMaterialization dsPath)) ↔
      ∃ k ∈ join_key_columns, k ∉ source_df.cols := by
  unfold evaluate_offline_job
  rw [normalize_timestamp_ok source_df ets cts h1 h2, except_ok_bind]
  by_cases hP : ∀ c ∈ join_key_columns, c ∈ columns_list source_df
  · rw [if_neg (not_not_intro hP)]
    constructor
    · intro h
      split at h <;> split at h <;> simp at h
    · rintro ⟨k, hk, hnk⟩
      exact absurd (hP k hk) hnk
  · rw [if_pos hP]
    constructor
    · intro _
      push_neg at hP
      exact hP
    · intro _
      rfl

/-- Witness for C4: the single join key driver is absent from a source
frame with columns id and ts, and evaluation returns the
join-key-mismatch error. -/
theorem pull_join_key_mismatch_iff_witness :
    ("ts" ∈ (DataFrame.mk ["id", "ts"] []).cols) ∧
      evaluate_offline_job (DataFrame.mk ["id", "ts"] []) "somepath" ["driver"]
          [] "ts" none 0 10 =
        Except.error (PyError.joinKeysDuringMaterialization "somepath") :=
  ⟨by decide,
    (pull_join_key_mismatch_iff (DataFrame.mk ["id", "ts"] []) "somepath"
        ["driver"] [] "ts" none 0 10 (by decide)
        (fun c h => nomatch h)).mpr (by decide)⟩

/-- First matching entry of a tabulated row. -/
theorem find?_tabulate (l : List String) (g : String → Value) (d : String)
    (hd : d ∈ l) :
    (l.map (fun c => (c, g c))).find? (fun p => p.1 == d) = some (d, g d) := by
  induction l with
  | nil => cases hd
  | cons a t ih =>
      by_cases h : a = d
      · subst h
        simp [List.find?_cons]
      · have hdt : d ∈ t := by
          cases hd with
          | head => exact absurd rfl h
          | tail _ hmem => exact hmem
        have hne : (a == d) = false := beq_false_of_ne h
        simp only [List.map_cons, List.find?_cons, hne]
        exact ih hdt

/-- Reading a tabulated row at a tabulated column. -/
theorem rowGet_tabulate (l : List String) (g : String → Value) (d : String)
    (hd : d ∈ l) :
    rowGet (l.map (fun c => (c, g c))) d = g d := by
  unfold rowGet
  rw [find?_tabulate l g d hd]

/-- Reading an appended column of a row that did not already contain it. -/
theorem rowGet_append_single (r : Row) (d : String) (v : Value)
    (h : r.find? (fun p => p.1 == d) = none) :
    rowGet (r ++ [(d, v)]) d = v := by
  unfold rowGet
  rw [List.find?_append, h]
  simp [List.find?]

/-- C7: a pull with an empty join-key list synthesizes the constant dummy
join-key column, includes it (once) in the projected output, and applies
no deduplication: the output keeps one row for every source row whose
event timestamp lies in the half-open query window. -/
theorem pull_no_join_keys (source_df : DataFrame) (dsPath : String)
    (feature_name_columns : List String) (ets : String) (cts : Option String)
    (start_date end_date : Int)
    (h1 : ets ∈ source_df.cols)
    (h2 : ∀ c, cts = some c → c ∈ source_df.cols)
    (h3 : ∀ r ∈ source_df.rows, r.find? (fun p => p.1 == DUMMY_ENTITY_ID) = none)
    (h4 : DUMMY_ENTITY_ID ∉ feature_name_columns)
    (h5 : DUMMY_ENTITY_ID ≠ ets)
    (h6 : ∀ c, cts = some c → DUMMY_ENTITY_ID ≠ c) :
    ∃ out,
      evaluate_offline_job source_df dsPath [] feature_name_columns ets cts
          start_date end_date = Except.ok out ∧
      out.cols.count DUMMY_ENTITY_ID = 1 ∧
      out.rows.length =
        (source_df.rows.filter (fun r =>
          match rowGet r ets with
          | Value.vint t => decide (start_date ≤ t ∧ t < end_date)
          | _ => false)).length ∧
      ∀ r ∈ out.rows, rowGet r DUMMY_ENTITY_ID = Value.vstr DUMMY_ENTITY_VAL := by
  have hts : DUMMY_ENTITY_ID ∉
      (match cts with
       | some c => [ets, c]
       | none => [ets]) := by
    cases cts with
    | none => simpa using h5
    | some c =>
        intro hmem
        rcases List.mem_cons.mp hmem with h | h
        · exact h5 h
        · exact h6 c rfl (by simpa using h)
  have hctx : DUMMY_ENTITY_ID ∉
      (([] ++ feature_name_columns ++
        (match cts with
         | some c => [ets, c]
         | none => [ets])).dedup) := by
    intro hmem
    rcases List.mem_append.mp (List.mem_dedup.mp hmem) with h | h
    · exact h4 (by simpa using h)
    · exact hts h
  unfold evaluate_offline_job
  rw [normalize_timestamp_ok source_df ets cts h1 h2, except_ok_bind]
  rw [if_neg (not_not_intro (fun c hc => absurd hc (List.not_mem_nil c)))]
  rw [if_neg (fun h => h rfl)]
  rw [if_neg hctx]
  refine ⟨_, rfl, ?_, ?_, ?_⟩
  · simp only [select]
    rw [List.count_append, List.count_eq_zero.mpr hctx]
    simp
  · simp [select, add_static_column, filter_time_range]
  · intro r hr
    simp only [select, List.mem_map] at hr
    obtain ⟨r1, hr1, hrEq⟩ := hr
    simp only [add_static_column, List.mem_map] at hr1
    obtain ⟨r0, hr0, hr0Eq⟩ := hr1
    have hr0src : r0 ∈ source_df.rows := by
      have hmem := hr0
      simp only [filter_time_range, List.mem_filter] at hmem
      exact hmem.1
    subst hrEq
    subst hr0Eq
    rw [rowGet_tabulate _ _ _ (List.mem_append_right _ (List.mem_singleton.mpr rfl))]
    exact rowGet_append_single r0 DUMMY_ENTITY_ID (Value.vstr DUMMY_ENTITY_VAL)
      (h3 r0 hr0src)

/-- Witness for C7: a two-row source with timestamps 1 and 2, queried over
the window from 0 to 10: both rows are retained with the constant dummy
key. -/
theorem pull_no_join_keys_witness :
    ("ts" ∈ (DataFrame.mk ["ts", "f"]
        [[("ts", Value.vint 1), ("f", Value.vint 5)],
         [("ts", Value.vint 2), ("f", Value.vint 6)]]).cols) ∧
    (∀ r ∈ (DataFrame.mk ["ts", "f"]
        [[("ts", Value.vint 1), ("f", Value.vint 5)],
         [("ts", Value.vint 2), ("f", Value.vint 6)]]).rows,
        r.find? (fun p => p.1 == DUMMY_ENTITY_ID) = none) ∧
    (∃ out,
      evaluate_offline_job (DataFrame.mk ["ts", "f"]
          [[("ts", Value.vint 1), ("f", Value.vint 5)],
           [("ts", Value.vint 2), ("f", Value.vint 6)]]) "somepath" [] ["f"]
          "ts" none 0 10 = Except.ok out ∧
      out.cols.count DUMMY_ENTITY_ID = 1 ∧
      out.rows.length =
        ((DataFrame.mk ["ts", "f"]
          [[("ts", Value.vint 1), ("f", Value.vint 5)],
           [("ts", Value.vint 2), ("f", Value.vint 6)]]).rows.filter (fun r =>
          match rowGet r "ts" with
          | Value.vint t => decide (0 ≤ t ∧ t < 10)
          | _ => false)).length ∧
      ∀ r ∈ out.rows, rowGet r DUMMY_ENTITY_ID = Value.vstr DUMMY_ENTITY_VAL) :=
  ⟨by decide, by decide,
    pull_no_join_keys (DataFrame.mk ["ts", "f"]
        [[("ts", Value.vint 1), ("f", Value.vint 5)],
         [("ts", Value.vint 2), ("f", Value.vint 6)]]) "somepath" ["f"] "ts"
      none 0 10 (by decide) (fun c h => nomatch h) (by decide) (by decide)
      (by decide) (fun c h => nomatch h)⟩

/-- Membership in a merged column list. -/
theorem mem_mergeCols (left right join_keys : List String) (c : String) :
    c ∈ mergeCols left right join_keys ↔ (c ∈ left ∨ c ∈ right) := by
  simp only [mergeCols, List.mem_append, List.mem_filter, decide_eq_true_eq]
  tauto

/-- Membership after dropping the timestamp columns. -/
theorem mem_dropColumnsSchema (cols : List String) (ets : String)
    (cts : Option String) (c : String) :
    c ∈ dropColumnsSchema cols ets cts ↔
      (c ∈ cols ∧ c ≠ ets ∧ ∀ c0, cts = some c0 → c ≠ c0) := by
  cases cts with
  | none =>
      simp [dropColumnsSchema, List.mem_filter]
  | some c0 =>
      simp [dropColumnsSchema, List.mem_filter, not_or]

/-- Membership in a feature view's source columns after field mapping:
the join keys, the renamed event-timestamp column, the created-timestamp
column, and the mapped feature columns. -/
theorem mem_fieldMapped (registry : String → String) (full : Bool)
    (fv : FeatureView)
    (ha : ∀ k ∈ joinKeysOf registry fv,
        lookupD fv.field_mapping k = k ∧ k ∉ fv.features)
    (hb : fv.event_timestamp_column ∉ fv.features)
    (hd : ∀ c0, fv.created_timestamp_column = some c0 →
        c0 ∉ fv.features ∧ lookupD fv.field_mapping c0 = c0)
    (c : String) :
    c ∈ (fieldMappingCols fv full (readDatasourceCols registry fv)).1 ↔
      (c ∈ joinKeysOf registry fv ∨ c = mappedEts fv ∨
       (∃ c0, fv.created_timestamp_column = some c0 ∧ c = c0) ∨
       c ∈ mappedFeatures fv full) := by
  have hets : (if fv.event_timestamp_column ∈ fv.features
      then mappedFeature fv full fv.event_timestamp_column
      else lookupD fv.field_mapping fv.event_timestamp_column) = mappedEts fv := by
    rw [if_neg hb]; rfl
  simp only [fieldMappingCols, readDatasourceCols, List.map_append,
    List.mem_append, List.mem_map]
  constructor
  · rintro (((⟨k, hk, rfl⟩ | ⟨x, hx, rfl⟩) | ⟨x, hx, rfl⟩) | ⟨x, hx, rfl⟩)
    · rw [if_neg (ha k hk).2, (ha k hk).1]
      exact Or.inl hk
    · rw [List.mem_singleton.mp hx]
      rw [hets]
      exact Or.inr (Or.inl rfl)
    · cases hcts : fv.created_timestamp_column with
      | none => rw [hcts] at hx; cases hx
      | some c0 =>
          rw [hcts] at hx
          rw [List.mem_singleton.mp hx]
          rw [if_neg (hd c0 hcts).1, (hd c0 hcts).2]
          exact Or.inr (Or.inr (Or.inl ⟨c0, rfl, rfl⟩))
    · rw [if_pos hx]
      exact Or.inr (Or.inr (Or.inr (List.mem_map.mpr ⟨x, hx, rfl⟩)))
  · rintro (hk | rfl | ⟨c0, hcts, rfl⟩ | hmf)
    · refine Or.inl (Or.inl (Or.inl ⟨c, hk, ?_⟩))
      rw [if_neg (ha c hk).2, (ha c hk).1]
    · refine Or.inl (Or.inl (Or.inr ⟨fv.event_timestamp_column,
        List.mem_singleton.mpr rfl, hets⟩))
    · refine Or.inl (Or.inr ?_)
      rw [hcts]
      exact ⟨c, List.mem_singleton.mpr rfl, by
        rw [if_neg (hd c hcts).1, (hd c hcts).2]⟩
    · obtain ⟨x, hx, rfl⟩ := List.mem_map.mp hmf
      exact Or.inr ⟨x, hx, by rw [if_pos hx]⟩

/-- One join-loop iteration adds exactly the view's output feature columns
to the accumulator (and keeps its timestamp columns out of it). -/
theorem step_mem (registry : String → String) (full : Bool)
    (entityCols : List String) (views : List FeatureView)
    (hwf : RetrievalWF registry full entityCols views)
    (fv : FeatureView) (hfv : fv ∈ views) (acc : List String)
    (Q : String → Prop)
    (hQ : ∀ c, Q c → ∃ fv' ∈ views, c ∈ mappedFeatures fv' full)
    (hacc : ∀ c, c ∈ acc ↔ (c ∈ entityCols ∨ Q c)) (c : String) :
    c ∈ processFeatureView registry full acc fv ↔
      (c ∈ entityCols ∨ (Q c ∨ c ∈ mappedFeatures fv full)) := by
  obtain ⟨ha, hb, hcc, hd⟩ := hwf fv hfv
  have hsnd : (fieldMappingCols fv full (readDatasourceCols registry fv)).2 =
      mappedEts fv := rfl
  have hdf := mem_fieldMapped registry full fv
    (fun k hk => ⟨(ha k hk).2.1, (ha k hk).2.2⟩) hb
    (fun c0 h => ⟨(hd c0 h).1, (hd c0 h).2.1⟩)
  have hfresh : ∀ x, (x ∈ entityCols ∨ Q x ∨ x ∈ mappedFeatures fv full) →
      x ≠ mappedEts fv ∧ ∀ c0, fv.created_timestamp_column = some c0 → x ≠ c0 := by
    intro x hx
    have hxmf : x ∈ entityCols ∨ ∃ fv' ∈ views, x ∈ mappedFeatures fv' full := by
      rcases hx with hE | hQx | hmf
      · exact Or.inl hE
      · exact Or.inr (hQ x hQx)
      · exact Or.inr ⟨fv, hfv, hmf⟩
    constructor
    · rintro rfl
      rcases hxmf with hE | ⟨fv', hfv', hmf'⟩
      · exact hcc.1 hE
      · exact hcc.2 fv' hfv' hmf'
    · intro c0 hc0 hxeq
      subst hxeq
      rcases hxmf with hE | ⟨fv', hfv', hmf'⟩
      · exact (hd _ hc0).2.2.1 hE
      · exact (hd _ hc0).2.2.2 fv' hfv' hmf'
  unfold processFeatureView
  rw [mem_dropColumnsSchema, mem_mergeCols, hsnd, hdf c, hacc c]
  constructor
  · rintro ⟨hmem, hne, hcts⟩
    rcases hmem with (hE | hQx) | (hjk | hm | hct | hmf)
    · exact Or.inl hE
    · exact Or.inr (Or.inl hQx)
    · exact Or.inl (ha c hjk).1
    · exact absurd hm hne
    · obtain ⟨c0, hc0, rfl⟩ := hct
      exact absurd rfl (hcts c hc0)
    · exact Or.inr (Or.inr hmf)
  · intro h
    have hf := hfresh c h
    refine ⟨?_, hf.1, hf.2⟩
    rcases h with hE | hQx | hmf
    · exact Or.inl (Or.inl hE)
    · exact Or.inl (Or.inr hQx)
    · exact Or.inr (Or.inr (Or.inr (Or.inr hmf)))

/-- Folding the join loop over a list of views adds exactly their output
feature columns to an accumulator already characterized by entity columns
and previously accumulated features. -/
theorem fold_mem (registry : String → String) (full : Bool)
    (entityCols : List String) (views : List FeatureView)
    (hwf : RetrievalWF registry full entityCols views) :
    ∀ vs : List FeatureView, (∀ fv ∈ vs, fv ∈ views) →
      ∀ (acc : List String) (Q : String → Prop),
        (∀ c, Q c → ∃ fv' ∈ views, c ∈ mappedFeatures fv' full) →
        (∀ c, c ∈ acc ↔ (c ∈ entityCols ∨ Q c)) →
        ∀ c, c ∈ vs.foldl (processFeatureView registry full) acc ↔
          (c ∈ entityCols ∨ Q c ∨ ∃ fv ∈ vs, c ∈ mappedFeatures fv full) := by
  intro vs
  induction vs with
  | nil =>
      intro _ acc Q _ hacc c
      simp only [List.foldl_nil]
      rw [hacc c]
      simp
  | cons fv vs' ih =>
      intro hsub acc Q hQ hacc c
      simp only [List.foldl_cons]
      have hfv : fv ∈ views := hsub fv (List.mem_cons_self _ _)
      have hstep := step_mem registry full entityCols views hwf fv hfv acc Q hQ hacc
      have hQ' : ∀ c, (Q c ∨ c ∈ mappedFeatures fv full) →
          ∃ fv' ∈ views, c ∈ mappedFeatures fv' full := by
        intro c h
        rcases h with h | h
        · exact hQ c h
        · exact ⟨fv, hfv, h⟩
      have hrec := ih (fun fv' h' => hsub fv' (List.mem_cons_of_mem _ h'))
        (processFeatureView registry full acc fv)
        (fun c => Q c ∨ c ∈ mappedFeatures fv full) hQ' hstep c
      rw [hrec, List.exists_mem_cons_iff]
      tauto

/-- C1: invariant of the historical-retrieval join loop — after processing
any prefix of the feature views, the accumulator's columns are exactly the
original entity columns plus the output feature columns of the processed
views, and the (renamed) event-timestamp and created-timestamp columns of
every processed view are absent from it. -/
theorem historical_accumulator_invariant (registry : String → String)
    (full : Bool) (entityCols : List String) (views : List FeatureView)
    (hwf : RetrievalWF registry full entityCols views) (i : Nat) :
    (∀ c, c ∈ evaluateHistoricalCols registry full entityCols (views.take i) ↔
        (c ∈ entityCols ∨ ∃ fv ∈ views.take i, c ∈ mappedFeatures fv full)) ∧
    (∀ fv ∈ views.take i,
        mappedEts fv ∉ evaluateHistoricalCols registry full entityCols (views.take i) ∧
        ∀ c0, fv.created_timestamp_column = some c0 →
          c0 ∉ evaluateHistoricalCols registry full entityCols (views.take i)) := by
  have hmain : ∀ c,
      c ∈ evaluateHistoricalCols registry full entityCols (views.take i) ↔
        (c ∈ entityCols ∨ ∃ fv ∈ views.take i, c ∈ mappedFeatures fv full) := by
    intro c
    have hfold := fold_mem registry full entityCols views hwf (views.take i)
      (fun fv h => List.take_subset i views h) entityCols (fun _ => False)
      (fun c h => h.elim) (fun c => by simp)
    have := hfold c
    rw [show evaluateHistoricalCols registry full entityCols (views.take i) =
      (views.take i).foldl (processFeatureView registry full) entityCols from rfl]
    rw [this]
    tauto
  refine ⟨hmain, ?_⟩
  intro fv hfv
  have hfv' : fv ∈ views := List.take_subset i views hfv
  obtain ⟨_, _, hcc, hd⟩ := hwf fv hfv'
  constructor
  · intro hmem
    rcases (hmain _).mp hmem with hE | ⟨fv', hfv2, hmf⟩
    · exact hcc.1 hE
    · exact hcc.2 fv' (List.take_subset i views hfv2) hmf
  · intro c0 h0 hmem
    rcases (hmain _).mp hmem with hE | ⟨fv', hfv2, hmf⟩
    · exact (hd c0 h0).2.2.1 hE
    · exact (hd c0 h0).2.2.2 fv' (List.take_subset i views hfv2) hmf

/-- Witness for C1: one feature view with join key driver_id over an
entity frame with columns driver_id and event_timestamp; after processing
it the accumulator is exactly the entity columns plus conv_rate, and ets
has been dropped. -/
theorem historical_accumulator_invariant_witness :
    RetrievalWF (fun _ => "driver_id") false ["driver_id", "event_timestamp"]
      [FeatureView.mk "fv1" ["driver"] [] [] ["conv_rate"] "ets" none] ∧
    (∀ c, c ∈ evaluateHistoricalCols (fun _ => "driver_id") false
        ["driver_id", "event_timestamp"]
        ([FeatureView.mk "fv1" ["driver"] [] [] ["conv_rate"] "ets" none].take 1) ↔
      (c ∈ ["driver_id", "event_timestamp"] ∨
        ∃ fv ∈ [FeatureView.mk "fv1" ["driver"] [] [] ["conv_rate"] "ets" none].take 1,
          c ∈ mappedFeatures fv false)) ∧
    (∀ fv ∈ [FeatureView.mk "fv1" ["driver"] [] [] ["conv_rate"] "ets" none].take 1,
        mappedEts fv ∉ evaluateHistoricalCols (fun _ => "driver_id") false
          ["driver_id", "event_timestamp"]
          ([FeatureView.mk "fv1" ["driver"] [] [] ["conv_rate"] "ets" none].take 1) ∧
        ∀ c0, fv.created_timestamp_column = some c0 →
          c0 ∉ evaluateHistoricalCols (fun _ => "driver_id") false
            ["driver_id", "event_timestamp"]
            ([FeatureView.mk "fv1" ["driver"] [] [] ["conv_rate"] "ets" none].take 1)) := by
  have hwf : RetrievalWF (fun _ => "driver_id") false
      ["driver_id", "event_timestamp"]
      [FeatureView.mk "fv1" ["driver"] [] [] ["conv_rate"] "ets" none] := by
    intro fv hfv
    rcases List.mem_singleton.mp hfv with rfl
    refine ⟨by decide, by decide, by decide, fun c0 h => nomatch h⟩
  have hmain := historical_accumulator_invariant (fun _ => "driver_id") false
    ["driver_id", "event_timestamp"]
    [FeatureView.mk "fv1" ["driver"] [] [] ["conv_rate"] "ets" none] hwf 1
  exact ⟨hwf, hmain.1, hmain.2⟩

/-- C2: contrary to the claim, `get_historical_features` never constructs
and returns a RetrievalJob at all: job construction raises
UnboundLocalError at line 288 on every input, so there is no deferred job
whose evaluation could perform the datasource reads. -/
theorem historical_construction_returns_no_job (e : EntityFrame) (full : Bool) :
    get_historical_features_construct e full =
      Except.error (PyError.unboundLocalError "entity_df_event_timestamp_col") := rfl

end Yummy
